import Mathlib

/-
Shallow embedding of the Splunk SOAR MCP connector
(src/mcp_server.py, the stdio variant, and src/mcp_server_remote.py,
the HTTP variant).  Python/JSON values are modelled by the inductive
type `Py`; the outbound REST layer is modelled by an oracle
`Net : RestRequest → NetResult` supplied as a parameter, and every
operation returns, next to its result, the list of REST requests it
issued, so that "no outbound call is made" and "exactly one POST is
issued" are statable.  Exceptions are modelled by `Except String`,
carrying the `str()` of the exception as it is observed by the
catch-all handler at the dispatch boundary.
-/

namespace SoarMCP

/-- A Python/JSON value, as handled by both server variants. -/
inductive Py where
  | none
  | bool (b : Bool)
  | int (n : Int)
  | str (s : String)
  | list (xs : List Py)
  | dict (kvs : List (String × Py))
deriving Repr

/-- Python `type(v).__name__`, used in attribute-error messages. -/
def Py.typeName : Py → String
  | .none => "NoneType"
  | .bool _ => "bool"
  | .int _ => "int"
  | .str _ => "str"
  | .list _ => "list"
  | .dict _ => "dict"

/-- Python truthiness, used by `if data` in the REST client. -/
def Py.truthy : Py → Bool
  | .none => false
  | .bool b => b
  | .int n => n != 0
  | .str s => s ≠ ""
  | .list xs => !xs.isEmpty
  | .dict kvs => !kvs.isEmpty

mutual

/-- Python `str(v)`, as used by f-string interpolation.  For strings it
is the bare text; containers render through `repr` as in CPython (the
escaping of special characters inside `repr` of a string is not
modelled; no claim touches it). -/
def Py.toStr : Py → String
  | .none => "None"
  | .bool true => "True"
  | .bool false => "False"
  | .int n => toString n
  | .str s => s
  | .list xs => "[" ++ Py.reprCommaList xs ++ "]"
  | .dict kvs => "\x7b" ++ Py.reprCommaDict kvs ++ "\x7d"

/-- Python `repr(v)` for the values above. -/
def Py.reprStr : Py → String
  | .none => "None"
  | .bool true => "True"
  | .bool false => "False"
  | .int n => toString n
  | .str s => "'" ++ s ++ "'"
  | .list xs => "[" ++ Py.reprCommaList xs ++ "]"
  | .dict kvs => "\x7b" ++ Py.reprCommaDict kvs ++ "\x7d"

/-- Comma-separated `repr` of list elements. -/
def Py.reprCommaList : List Py → String
  | [] => ""
  | [x] => Py.reprStr x
  | x :: xs => Py.reprStr x ++ ", " ++ Py.reprCommaList xs

/-- Comma-separated `repr` of dict items. -/
def Py.reprCommaDict : List (String × Py) → String
  | [] => ""
  | [(k, v)] => "'" ++ k ++ "': " ++ Py.reprStr v
  | (k, v) :: kvs => "'" ++ k ++ "': " ++ Py.reprStr v ++ ", " ++ Py.reprCommaDict kvs

end

/-- Escaping applied by `json.dumps` to string payloads (quotes and
backslashes; control characters are not modelled, no claim depends on
serialised payload text). -/
def jsonEscape (s : String) : String :=
  (s.replace "\\" "\\\\").replace "\"" "\\\""

mutual

/-- Python `json.dumps(v)` with default separators. -/
def Py.dumps : Py → String
  | .none => "null"
  | .bool true => "true"
  | .bool false => "false"
  | .int n => toString n
  | .str s => "\"" ++ jsonEscape s ++ "\""
  | .list xs => "[" ++ Py.dumpsList xs ++ "]"
  | .dict kvs => "\x7b" ++ Py.dumpsDict kvs ++ "\x7d"

/-- Comma-separated `json.dumps` of list elements. -/
def Py.dumpsList : List Py → String
  | [] => ""
  | [x] => Py.dumps x
  | x :: xs => Py.dumps x ++ ", " ++ Py.dumpsList xs

/-- Comma-separated `json.dumps` of dict items. -/
def Py.dumpsDict : List (String × Py) → String
  | [] => ""
  | [(k, v)] => "\"" ++ jsonEscape k ++ "\": " ++ Py.dumps v
  | (k, v) :: kvs =>
      "\"" ++ jsonEscape k ++ "\": " ++ Py.dumps v ++ ", " ++ Py.dumpsDict kvs

end

/-- A run of `n` spaces, for the indented serialiser. -/
def spaces (n : Nat) : String := String.mk (List.replicate n ' ')

mutual

/-- Python `json.dumps(v, indent=2)` at nesting level `lvl`. -/
def Py.dumps2At : Py → Nat → String
  | .none, _ => "null"
  | .bool true, _ => "true"
  | .bool false, _ => "false"
  | .int n, _ => toString n
  | .str s, _ => "\"" ++ jsonEscape s ++ "\""
  | .list [], _ => "[]"
  | .list (x :: xs), lvl =>
      "[\n" ++ Py.dumps2List (x :: xs) (lvl + 1) ++ "\n" ++ spaces (2 * lvl) ++ "]"
  | .dict [], _ => "\x7b\x7d"
  | .dict (kv :: kvs), lvl =>
      "\x7b\n" ++ Py.dumps2Dict (kv :: kvs) (lvl + 1) ++ "\n" ++ spaces (2 * lvl) ++ "\x7d"

/-- Indented list elements, one per line. -/
def Py.dumps2List : List Py → Nat → String
  | [], _ => ""
  | [x], lvl => spaces (2 * lvl) ++ Py.dumps2At x lvl
  | x :: xs, lvl => spaces (2 * lvl) ++ Py.dumps2At x lvl ++ ",\n" ++ Py.dumps2List xs lvl

/-- Indented dict items, one per line. -/
def Py.dumps2Dict : List (String × Py) → Nat → String
  | [], _ => ""
  | [(k, v)], lvl =>
      spaces (2 * lvl) ++ "\"" ++ jsonEscape k ++ "\": " ++ Py.dumps2At v lvl
  | (k, v) :: kvs, lvl =>
      spaces (2 * lvl) ++ "\"" ++ jsonEscape k ++ "\": " ++ Py.dumps2At v lvl
        ++ ",\n" ++ Py.dumps2Dict kvs lvl

end

/-- Python `json.dumps(v, indent=2)`. -/
def Py.dumps2 (v : Py) : String := Py.dumps2At v 0

/-- Dict member lookup (`d[k]` / `d.get(k)` on a known dict). -/
def Py.lookup (v : Py) (k : String) : Option Py :=
  match v with
  | .dict kvs => kvs.lookup k
  | _ => Option.none

/-- Python `name == s` where `s` is a string literal. -/
def pyEqStr (v : Py) (s : String) : Bool :=
  match v with
  | .str t => t == s
  | _ => false

/-- Python `args.get(k, d)` on a plain `dict` argument mapping. -/
def dget (args : List (String × Py)) (k : String) (d : Py) : Py :=
  (args.lookup k).getD d

/-- Python `v.get(k, d)` on an arbitrary value: an `AttributeError`
(with CPython's message) when `v` is not a dict. -/
def pyGet (v : Py) (k : String) (d : Py) : Except String Py :=
  match v with
  | .dict kvs => .ok ((kvs.lookup k).getD d)
  | _ => .error ("'" ++ v.typeName ++ "' object has no attribute 'get'")

/-- The module-level configuration read from the environment
(`SPLUNK_SOAR_URL` after `rstrip("/")`, and `SPLUNK_SOAR_TOKEN`). -/
structure Config where
  splunkUrl : String
  splunkToken : String
deriving Repr

/-- One outbound REST request as built by `soar_api_request`: full URL,
HTTP method, headers, and the JSON body object handed to `json.dumps`
(`Option.none` when `urllib` is given no payload). -/
structure RestRequest where
  url : String
  method : String
  headers : List (String × String)
  body : Option Py
deriving Repr

/-- Outcome of one `urllib.request.urlopen` call (with the response
already decoded by `json.loads` on success): a payload, an
`HTTPError` carrying status code, reason phrase and the body text
that `e.read()` yields when `e.fp` is present, or a `URLError` with a
reason. -/
inductive NetResult where
  | ok (payload : Py)
  | httpError (code : Nat) (msg : String) (body : Option String)
  | connError (reason : String)
deriving Repr

/-- The network oracle: what the remote endpoint answers to a request. -/
def Net : Type := RestRequest → NetResult

/-- `request_data = json.dumps(data).encode() if data else None`: a
missing or falsy (empty) dict sends no body. -/
def sentBody (data : Option Py) : Option Py :=
  match data with
  | some d => if d.truthy then some d else Option.none
  | Option.none => Option.none

/-- `soar_api_request` of src/mcp_server.py (stdio variant).  Returns
the result of the call — `Except.error` carries the `str()` of the
exception the caller's handler observes — paired with the list of
REST requests actually issued. -/
def soar_api_request (cfg : Config) (net : Net) (endpoint : String)
    (method : String) (data : Option Py) : Except String Py × List RestRequest :=
  if cfg.splunkUrl = "" ∨ cfg.splunkToken = "" then
    (.error "SPLUNK_SOAR_URL and SPLUNK_SOAR_TOKEN environment variables must be set", [])
  else
    let req : RestRequest :=
      { url := cfg.splunkUrl ++ "/rest" ++ endpoint
        method := method
        headers := [("ph-auth-token", cfg.splunkToken), ("Content-Type", "application/json")]
        body := sentBody data }
    match net req with
    | .ok payload => (.ok payload, [req])
    | .httpError code msg body =>
        (.error ("API Error " ++ toString code ++ ": "
          ++ body.getD ("HTTP Error " ++ toString code ++ ": " ++ msg)), [req])
    | .connError reason => (.error ("Connection Error: " ++ reason), [req])

/-- `soar_api_request` of src/mcp_server_remote.py (HTTP variant).  It
has no `URLError` handler, so a connection failure propagates as the
raw `URLError`, whose `str()` is `<urlopen error reason>`; its
configuration message also differs. -/
def soar_api_request_remote (cfg : Config) (net : Net) (endpoint : String)
    (method : String) (data : Option Py) : Except String Py × List RestRequest :=
  if cfg.splunkUrl = "" ∨ cfg.splunkToken = "" then
    (.error "SPLUNK_SOAR_URL and SPLUNK_SOAR_TOKEN must be set", [])
  else
    let req : RestRequest :=
      { url := cfg.splunkUrl ++ "/rest" ++ endpoint
        method := method
        headers := [("ph-auth-token", cfg.splunkToken), ("Content-Type", "application/json")]
        body := sentBody data }
    match net req with
    | .ok payload => (.ok payload, [req])
    | .httpError code msg body =>
        (.error ("API Error " ++ toString code ++ ": "
          ++ body.getD ("HTTP Error " ++ toString code ++ ": " ++ msg)), [req])
    | .connError reason => (.error ("<urlopen error " ++ reason ++ ">"), [req])

/-- Map a successful REST payload to the branch's result text, keeping
errors and the issued-request log unchanged. -/
def mapOk (f : Py → String) :
    Except String Py × List RestRequest → Except String String × List RestRequest
  | (.ok v, reqs) => (.ok (f v), reqs)
  | (.error e, reqs) => (.error e, reqs)

/-- An MCP `TextContent` block (`type="text"` plus the text payload). -/
structure TextContent where
  type : String
  text : String
deriving Repr

/-- The body of `call_tool` in src/mcp_server.py inside its `try`:
either the success text of the branch or the `str()` of the exception
that reaches the `except` handler, plus the issued requests.  Names
are matched by the `if/elif` chain; `arguments["k"]` on a missing key
is the `KeyError` whose `str()` is the quoted key. -/
def call_tool_core (cfg : Config) (net : Net) (name : String)
    (arguments : List (String × Py)) : Except String String × List RestRequest :=
  if name = "test_connection" then
    mapOk (fun r => "Connection successful! SOAR Version: " ++ r.dumps2)
      (soar_api_request cfg net "/version" "GET" Option.none)
  else if name = "list_containers" then
    let page := dget arguments "page" (.int 0)
    let page_size := dget arguments "page_size" (.int 10)
    mapOk Py.dumps2
      (soar_api_request cfg net
        ("/container?page=" ++ page.toStr ++ "&page_size=" ++ page_size.toStr)
        "GET" Option.none)
  else if name = "get_container" then
    match arguments.lookup "container_id" with
    | Option.none => (.error "'container_id'", [])
    | some container_id =>
        mapOk Py.dumps2
          (soar_api_request cfg net ("/container/" ++ container_id.toStr) "GET" Option.none)
  else if name = "list_playbooks" then
    mapOk Py.dumps2 (soar_api_request cfg net "/playbook?page_size=100" "GET" Option.none)
  else if name = "run_playbook" then
    match arguments.lookup "playbook_id" with
    | Option.none => (.error "'playbook_id'", [])
    | some playbook_id =>
        match arguments.lookup "container_id" with
        | Option.none => (.error "'container_id'", [])
        | some container_id =>
            let scope := dget arguments "scope" (.str "all")
            let data : Py := .dict
              [("container_id", container_id), ("playbook_id", playbook_id),
               ("scope", scope), ("run", .bool true)]
            mapOk (fun r => "Playbook started: " ++ r.dumps2)
              (soar_api_request cfg net "/playbook_run" "POST" (some data))
  else if name = "list_actions" then
    mapOk Py.dumps2 (soar_api_request cfg net "/action?page_size=100" "GET" Option.none)
  else if name = "get_action_run" then
    match arguments.lookup "action_run_id" with
    | Option.none => (.error "'action_run_id'", [])
    | some action_run_id =>
        mapOk Py.dumps2
          (soar_api_request cfg net ("/action_run/" ++ action_run_id.toStr) "GET" Option.none)
  else if name = "list_assets" then
    mapOk Py.dumps2 (soar_api_request cfg net "/asset?page_size=100" "GET" Option.none)
  else if name = "get_system_info" then
    mapOk Py.dumps2 (soar_api_request cfg net "/system_info" "GET" Option.none)
  else
    (.ok ("Unknown tool: " ++ name), [])

/-- `call_tool` of src/mcp_server.py: the `try/except` wrapper turning
any exception into a single `TextContent` reading `Error: ...`. -/
def call_tool (cfg : Config) (net : Net) (name : String)
    (arguments : List (String × Py)) : List TextContent × List RestRequest :=
  match call_tool_core cfg net name arguments with
  | (.ok t, reqs) => ([⟨"text", t⟩], reqs)
  | (.error e, reqs) => ([⟨"text", "Error: " ++ e⟩], reqs)

/-- The nine registered tool names, in registration order. -/
def TOOL_NAMES : List String :=
  ["test_connection", "list_containers", "get_container", "list_playbooks",
   "run_playbook", "list_actions", "get_action_run", "list_assets", "get_system_info"]

/-- Schema helper mirroring the literal
`{"type": "object", "properties": ..., "required": ...}` objects of
src/mcp_server.py. -/
def mkSchema (props : List (String × Py)) (req : List String) : Py :=
  .dict [("type", .str "object"), ("properties", .dict props),
         ("required", .list (req.map Py.str))]

/-- One property entry `{"type": t, "description": d}`. -/
def mkProp (t d : String) : Py :=
  .dict [("type", .str t), ("description", .str d)]

/-- `list_tools` of src/mcp_server.py: the static list of nine tool
descriptors, each a `Tool(name, description, inputSchema)` rendered
here as a dict with those three fields. -/
def list_tools : List Py :=
  [.dict [("name", .str "test_connection"),
          ("description", .str "Test the connection to Splunk SOAR instance"),
          ("inputSchema", mkSchema [] [])],
   .dict [("name", .str "list_containers"),
          ("description", .str "List containers (incidents/cases) in Splunk SOAR"),
          ("inputSchema", mkSchema
            [("page", mkProp "integer" "Page number (default: 0)"),
             ("page_size", mkProp "integer" "Results per page (default: 10)")] [])],
   .dict [("name", .str "get_container"),
          ("description", .str "Get details of a specific container by ID"),
          ("inputSchema", mkSchema
            [("container_id", mkProp "integer" "Container ID")] ["container_id"])],
   .dict [("name", .str "list_playbooks"),
          ("description", .str "List available playbooks in Splunk SOAR"),
          ("inputSchema", mkSchema [] [])],
   .dict [("name", .str "run_playbook"),
          ("description", .str "Run a playbook on a container"),
          ("inputSchema", mkSchema
            [("playbook_id", mkProp "integer" "Playbook ID to run"),
             ("container_id", mkProp "integer" "Container ID to run playbook on"),
             ("scope", mkProp "string" "Scope: 'all' or 'new' (default: 'all')")]
            ["playbook_id", "container_id"])],
   .dict [("name", .str "list_actions"),
          ("description", .str "List available actions in Splunk SOAR"),
          ("inputSchema", mkSchema [] [])],
   .dict [("name", .str "get_action_run"),
          ("description", .str "Get the status and results of an action run"),
          ("inputSchema", mkSchema
            [("action_run_id", mkProp "integer" "Action Run ID")] ["action_run_id"])],
   .dict [("name", .str "list_assets"),
          ("description", .str "List configured assets in Splunk SOAR"),
          ("inputSchema", mkSchema [] [])],
   .dict [("name", .str "get_system_info"),
          ("description", .str "Get Splunk SOAR system information"),
          ("inputSchema", mkSchema [] [])]]

/-- `TOOLS` of src/mcp_server_remote.py: nine dicts carrying only a
name and a description — no `inputSchema` member. -/
def TOOLS : List Py :=
  [.dict [("name", .str "test_connection"), ("description", .str "Test connection to SOAR")],
   .dict [("name", .str "list_containers"), ("description", .str "List containers/incidents")],
   .dict [("name", .str "get_container"), ("description", .str "Get container details")],
   .dict [("name", .str "list_playbooks"), ("description", .str "List available playbooks")],
   .dict [("name", .str "run_playbook"), ("description", .str "Run a playbook")],
   .dict [("name", .str "list_actions"), ("description", .str "List available actions")],
   .dict [("name", .str "get_action_run"), ("description", .str "Get action run status")],
   .dict [("name", .str "list_assets"), ("description", .str "List configured assets")],
   .dict [("name", .str "get_system_info"), ("description", .str "Get system information")]]

/-- The body of `execute_tool` in src/mcp_server_remote.py inside its
`try`.  The tool name arrives as an arbitrary JSON value (it is
`data.get("tool")`), compared against string literals; every argument
is read with `args.get(...)`, so a missing required argument becomes
the placeholder `None` and still reaches the REST call. -/
def execute_tool_core (cfg : Config) (net : Net) (name : Py) (args : Py) :
    Except String String × List RestRequest :=
  if pyEqStr name "test_connection" then
    mapOk (fun r => "Connected! Version: " ++ r.dumps)
      (soar_api_request_remote cfg net "/version" "GET" Option.none)
  else if pyEqStr name "list_containers" then
    match pyGet args "page" (.int 0) with
    | .error e => (.error e, [])
    | .ok page =>
        match pyGet args "page_size" (.int 10) with
        | .error e => (.error e, [])
        | .ok page_size =>
            mapOk Py.dumps2
              (soar_api_request_remote cfg net
                ("/container?page=" ++ page.toStr ++ "&page_size=" ++ page_size.toStr)
                "GET" Option.none)
  else if pyEqStr name "get_container" then
    match pyGet args "container_id" Py.none with
    | .error e => (.error e, [])
    | .ok container_id =>
        mapOk Py.dumps2
          (soar_api_request_remote cfg net ("/container/" ++ container_id.toStr)
            "GET" Option.none)
  else if pyEqStr name "list_playbooks" then
    mapOk Py.dumps2
      (soar_api_request_remote cfg net "/playbook?page_size=100" "GET" Option.none)
  else if pyEqStr name "run_playbook" then
    match pyGet args "container_id" Py.none with
    | .error e => (.error e, [])
    | .ok container_id =>
        match pyGet args "playbook_id" Py.none with
        | .error e => (.error e, [])
        | .ok playbook_id =>
            match pyGet args "scope" (.str "all") with
            | .error e => (.error e, [])
            | .ok scope =>
                let data : Py := .dict
                  [("container_id", container_id), ("playbook_id", playbook_id),
                   ("scope", scope), ("run", .bool true)]
                mapOk (fun r => "Playbook started: " ++ r.dumps)
                  (soar_api_request_remote cfg net "/playbook_run" "POST" (some data))
  else if pyEqStr name "list_actions" then
    mapOk Py.dumps2
      (soar_api_request_remote cfg net "/action?page_size=100" "GET" Option.none)
  else if pyEqStr name "get_action_run" then
    match pyGet args "action_run_id" Py.none with
    | .error e => (.error e, [])
    | .ok action_run_id =>
        mapOk Py.dumps2
          (soar_api_request_remote cfg net ("/action_run/" ++ action_run_id.toStr)
            "GET" Option.none)
  else if pyEqStr name "list_assets" then
    mapOk Py.dumps2
      (soar_api_request_remote cfg net "/asset?page_size=100" "GET" Option.none)
  else if pyEqStr name "get_system_info" then
    mapOk Py.dumps2 (soar_api_request_remote cfg net "/system_info" "GET" Option.none)
  else
    (.ok ("Unknown tool: " ++ name.toStr), [])

/-- `execute_tool` of src/mcp_server_remote.py: the `try/except`
wrapper turning any exception into the string `Error: ...`. -/
def execute_tool (cfg : Config) (net : Net) (name : Py) (args : Py) :
    String × List RestRequest :=
  match execute_tool_core cfg net name args with
  | (.ok t, reqs) => (t, reqs)
  | (.error e, reqs) => ("Error: " ++ e, reqs)

/-- An HTTP response the handler sends: status and JSON body. -/
structure HttpResponse where
  status : Nat
  body : Py
deriving Repr

/-- `MCPHandler.do_GET`: routes `/health`, `/tools`, else 404.  The
module globals (configuration) are in scope but unused. -/
def do_GET (_cfg : Config) (path : String) : HttpResponse :=
  if path = "/health" then ⟨200, .dict [("status", .str "ok")]⟩
  else if path = "/tools" then ⟨200, .dict [("tools", .list TOOLS)]⟩
  else ⟨404, .dict [("error", .str "Not found")]⟩

/-- `MCPHandler.do_POST`: reads the body (the empty string when
`Content-Length` is 0), parses it with `json.loads` — modelled by the
`loads` parameter — unless empty (then `{}`), and on `/execute`
dispatches `data.get("tool")` with `data.get("arguments", {})`.  Any
exception in the `try` yields a 500 with the message.  Issued REST
requests are returned alongside the response. -/
def do_POST (cfg : Config) (net : Net) (loads : String → Except String Py)
    (path : String) (body : String) : HttpResponse × List RestRequest :=
  let dataE : Except String Py := if body = "" then .ok (.dict []) else loads body
  match dataE with
  | .error e => (⟨500, .dict [("error", .str e)]⟩, [])
  | .ok data =>
      if path = "/execute" then
        match pyGet data "tool" Py.none with
        | .error e => (⟨500, .dict [("error", .str e)]⟩, [])
        | .ok tool_name =>
            match pyGet data "arguments" (.dict []) with
            | .error e => (⟨500, .dict [("error", .str e)]⟩, [])
            | .ok args =>
                match execute_tool cfg net tool_name args with
                | (result, reqs) => (⟨200, .dict [("result", .str result)]⟩, reqs)
      else (⟨404, .dict [("error", .str "Not found")]⟩, [])

/-- The headers attached to every outbound REST request. -/
def headersFor (cfg : Config) : List (String × String) :=
  [("ph-auth-token", cfg.splunkToken), ("Content-Type", "application/json")]

/-- The single POST issued by `run_playbook`. -/
def runReq (cfg : Config) (scope playbook_id container_id : Py) : RestRequest :=
  ⟨cfg.splunkUrl ++ "/rest/playbook_run", "POST", headersFor cfg,
   some (.dict [("container_id", container_id), ("playbook_id", playbook_id),
                ("scope", scope), ("run", .bool true)])⟩

/-- A fixed valid configuration, used to instantiate theorems. -/
def cfgW : Config := ⟨"https://soar.example.com", "tok"⟩

/-- A network oracle answering every request successfully. -/
def netOkW : Net := fun _ => .ok (.dict [("id", .int 1)])

/-- The tool name read from a descriptor dict. -/
def descName (d : Py) : Option Py := d.lookup "name"

/-- Argument names and their declared JSON types, extracted from a
descriptor's `inputSchema.properties`. -/
def descSchemaProps (d : Py) : Option (List (String × Option Py)) :=
  match (d.lookup "inputSchema").bind (fun s => s.lookup "properties") with
  | some (.dict props) => some (props.map (fun kv => (kv.1, kv.2.lookup "type")))
  | _ => Option.none

/-- The `required` marker list of a descriptor's `inputSchema`. -/
def descSchemaRequired (d : Py) : Option Py :=
  (d.lookup "inputSchema").bind (fun s => s.lookup "required")

/-- The argument names and JSON types each tool's descriptor must
declare, following the spec's words: section 4.1 requires every
descriptor to name its arguments and their types, and sections 4.2
and 6 fix which arguments exist (`page`/`page_size` for
`list_containers`, `container_id` for `get_container`,
`playbook_id`/`container_id`/`scope` for `run_playbook`,
`action_run_id` for `get_action_run`, none elsewhere). -/
def specToolArgs : String → List (String × String)
  | "list_containers" => [("page", "integer"), ("page_size", "integer")]
  | "get_container" => [("container_id", "integer")]
  | "run_playbook" =>
      [("playbook_id", "integer"), ("container_id", "integer"), ("scope", "string")]
  | "get_action_run" => [("action_run_id", "integer")]
  | _ => []

/-- The required-argument markers each tool's descriptor must carry,
following the spec's words (sections 4.1 and 4.2: `container_id`,
`playbook_id` with `container_id`, and `action_run_id` are required;
everything else is optional or absent). -/
def specRequiredArgs : String → List String
  | "get_container" => ["container_id"]
  | "run_playbook" => ["playbook_id", "container_id"]
  | "get_action_run" => ["action_run_id"]
  | _ => []

set_option maxHeartbeats 1000000

lemma call_tool_snd (cfg : Config) (net : Net) (n : String) (a : List (String × Py)) :
    (call_tool cfg net n a).2 = (call_tool_core cfg net n a).2 := by
  unfold call_tool
  rcases call_tool_core cfg net n a with ⟨(e | t), reqs⟩ <;> rfl

lemma call_tool_err (cfg : Config) (net : Net) (n : String) (a : List (String × Py))
    (e : String) (h : (call_tool_core cfg net n a).1 = .error e) :
    (call_tool cfg net n a).1 = [⟨"text", "Error: " ++ e⟩] := by
  unfold call_tool
  rcases hh : call_tool_core cfg net n a with ⟨(e' | t), reqs⟩ <;> rw [hh] at h <;>
    simp_all

lemma execute_tool_snd (cfg : Config) (net : Net) (n a : Py) :
    (execute_tool cfg net n a).2 = (execute_tool_core cfg net n a).2 := by
  unfold execute_tool
  rcases execute_tool_core cfg net n a with ⟨(e | t), reqs⟩ <;> rfl

lemma execute_tool_err (cfg : Config) (net : Net) (n a : Py)
    (e : String) (h : (execute_tool_core cfg net n a).1 = .error e) :
    (execute_tool cfg net n a).1 = "Error: " ++ e := by
  unfold execute_tool
  rcases hh : execute_tool_core cfg net n a with ⟨(e' | t), reqs⟩ <;> rw [hh] at h <;>
    simp_all

lemma soar_conn_eq (cfg : Config) (r ep m : String) (d : Option Py) :
    soar_api_request cfg (fun _ => NetResult.connError r) ep m d =
      if cfg.splunkUrl = "" ∨ cfg.splunkToken = "" then
        (.error "SPLUNK_SOAR_URL and SPLUNK_SOAR_TOKEN environment variables must be set", [])
      else
        (.error ("Connection Error: " ++ r),
         [⟨cfg.splunkUrl ++ "/rest" ++ ep, m, headersFor cfg, sentBody d⟩]) := by
  unfold soar_api_request headersFor
  split_ifs <;> rfl

lemma soar_conn_eq_remote (cfg : Config) (r ep m : String) (d : Option Py) :
    soar_api_request_remote cfg (fun _ => NetResult.connError r) ep m d =
      if cfg.splunkUrl = "" ∨ cfg.splunkToken = "" then
        (.error "SPLUNK_SOAR_URL and SPLUNK_SOAR_TOKEN must be set", [])
      else
        (.error ("<urlopen error " ++ r ++ ">"),
         [⟨cfg.splunkUrl ++ "/rest" ++ ep, m, headersFor cfg, sentBody d⟩]) := by
  unfold soar_api_request_remote headersFor
  split_ifs <;> rfl

lemma soar_http_eq (cfg : Config) (code : Nat) (msg bodyText ep m : String) (d : Option Py) :
    soar_api_request cfg (fun _ => NetResult.httpError code msg (some bodyText)) ep m d =
      if cfg.splunkUrl = "" ∨ cfg.splunkToken = "" then
        (.error "SPLUNK_SOAR_URL and SPLUNK_SOAR_TOKEN environment variables must be set", [])
      else
        (.error ("API Error " ++ toString code ++ ": " ++ bodyText),
         [⟨cfg.splunkUrl ++ "/rest" ++ ep, m, headersFor cfg, sentBody d⟩]) := by
  unfold soar_api_request headersFor
  split_ifs <;> rfl

lemma soar_http_eq_remote (cfg : Config) (code : Nat) (msg bodyText ep m : String)
    (d : Option Py) :
    soar_api_request_remote cfg (fun _ => NetResult.httpError code msg (some bodyText)) ep m d =
      if cfg.splunkUrl = "" ∨ cfg.splunkToken = "" then
        (.error "SPLUNK_SOAR_URL and SPLUNK_SOAR_TOKEN must be set", [])
      else
        (.error ("API Error " ++ toString code ++ ": " ++ bodyText),
         [⟨cfg.splunkUrl ++ "/rest" ++ ep, m, headersFor cfg, sentBody d⟩]) := by
  unfold soar_api_request_remote headersFor
  split_ifs <;> rfl

lemma ctc_connError (cfg : Config) (r name : String) (args : List (String × Py)) :
    (call_tool_core cfg (fun _ => NetResult.connError r) name args).2 ≠ [] →
    (call_tool_core cfg (fun _ => NetResult.connError r) name args).1
      = .error ("Connection Error: " ++ r) := by
  by_cases hu : cfg.splunkUrl = "" ∨ cfg.splunkToken = ""
  all_goals
    unfold call_tool_core
    simp only [soar_conn_eq, hu, if_true, if_false, ite_true, ite_false, mapOk]
    split_ifs <;> (repeat' split) <;> simp [mapOk]

lemma etc_connError (cfg : Config) (r : String) (name args : Py) :
    (execute_tool_core cfg (fun _ => NetResult.connError r) name args).2 ≠ [] →
    (execute_tool_core cfg (fun _ => NetResult.connError r) name args).1
      = .error ("<urlopen error " ++ r ++ ">") := by
  by_cases hu : cfg.splunkUrl = "" ∨ cfg.splunkToken = ""
  all_goals
    unfold execute_tool_core
    simp only [soar_conn_eq_remote, hu, if_true, if_false, ite_true, ite_false, mapOk]
    split_ifs <;> (repeat' split) <;> simp [mapOk]

lemma ctc_httpError (cfg : Config) (code : Nat) (msg bodyText name : String)
    (args : List (String × Py)) :
    (call_tool_core cfg (fun _ => NetResult.httpError code msg (some bodyText)) name args).2 ≠ [] →
    (call_tool_core cfg (fun _ => NetResult.httpError code msg (some bodyText)) name args).1
      = .error ("API Error " ++ toString code ++ ": " ++ bodyText) := by
  by_cases hu : cfg.splunkUrl = "" ∨ cfg.splunkToken = ""
  all_goals
    unfold call_tool_core
    simp only [soar_http_eq, hu, if_true, if_false, ite_true, ite_false, mapOk]
    split_ifs <;> (repeat' split) <;> simp [mapOk]

lemma etc_httpError (cfg : Config) (code : Nat) (msg bodyText : String) (name args : Py) :
    (execute_tool_core cfg (fun _ => NetResult.httpError code msg (some bodyText)) name args).2
        ≠ [] →
    (execute_tool_core cfg (fun _ => NetResult.httpError code msg (some bodyText)) name args).1
      = .error ("API Error " ++ toString code ++ ": " ++ bodyText) := by
  by_cases hu : cfg.splunkUrl = "" ∨ cfg.splunkToken = ""
  all_goals
    unfold execute_tool_core
    simp only [soar_http_eq_remote, hu, if_true, if_false, ite_true, ite_false, mapOk]
    split_ifs <;> (repeat' split) <;> simp [mapOk]

/-- C1: the claim asks that a missing required argument fail with a
"missing argument" client-input error and that no REST call carrying
a placeholder be issued.  The code does neither: the stdio variant
converts the raw `KeyError` into the text `Error: 'container_id'`,
and the HTTP variant substitutes the placeholder `None` and issues an
outbound `GET .../rest/container/None`.  This theorem evaluates both
variants at the failing input (`get_container` with no arguments). -/
theorem C1_missing_argument_behavior :
    call_tool cfgW netOkW "get_container" [] = ([⟨"text", "Error: 'container_id'"⟩], [])
    ∧ (execute_tool cfgW netOkW (.str "get_container") (.dict [])).2
        = [⟨"https://soar.example.com/rest/container/None", "GET",
            [("ph-auth-token", "tok"), ("Content-Type", "application/json")], Option.none⟩] :=
  ⟨rfl, rfl⟩

/-- C2: when every outbound REST call fails at the connection level,
any invocation that issued a call returns (rather than throws) a
result string that names the connection failure and carries the
underlying reason, in both variants: the stdio variant yields the
single text block `Error: Connection Error: <reason>` and the HTTP
variant the string `Error: <urlopen error <reason>>`. -/
theorem C2_connection_failure_reported (cfg : Config) (r name : String)
    (args : List (String × Py)) (pyname pyargs : Py) :
    ((call_tool cfg (fun _ => NetResult.connError r) name args).2 ≠ [] →
      (call_tool cfg (fun _ => NetResult.connError r) name args).1
        = [⟨"text", "Error: " ++ ("Connection Error: " ++ r)⟩])
    ∧ ((execute_tool cfg (fun _ => NetResult.connError r) pyname pyargs).2 ≠ [] →
      (execute_tool cfg (fun _ => NetResult.connError r) pyname pyargs).1
        = "Error: " ++ ("<urlopen error " ++ r ++ ">")) := by
  constructor
  · intro hne
    rw [call_tool_snd] at hne
    exact call_tool_err _ _ _ _ _ (ctc_connError cfg r name args hne)
  · intro hne
    rw [execute_tool_snd] at hne
    exact execute_tool_err _ _ _ _ _ (etc_connError cfg r pyname pyargs hne)

/-- Witness for C2 at a concrete invocation (`list_playbooks` under a
valid configuration, with every call refused with reason `boom`). -/
theorem C2_connection_failure_reported_witness :
    (call_tool cfgW (fun _ => NetResult.connError "boom") "list_playbooks" []).1
      = [⟨"text", "Error: " ++ ("Connection Error: " ++ "boom")⟩]
    ∧ (execute_tool cfgW (fun _ => NetResult.connError "boom")
        (.str "list_playbooks") (.dict [])).1
      = "Error: " ++ ("<urlopen error " ++ "boom" ++ ">") := by
  have h := C2_connection_failure_reported cfgW "boom" "list_playbooks" []
    (.str "list_playbooks") (.dict [])
  refine ⟨h.1 ?_, h.2 ?_⟩
  · intro hh
    exact List.cons_ne_nil _ _ (show _ :: _ = ([] : List RestRequest) from hh)
  · intro hh
    exact List.cons_ne_nil _ _ (show _ :: _ = ([] : List RestRequest) from hh)

/-- C3 counterexample: the claim asserts that in BOTH variants every
descriptor returned by tool enumeration carries the argument schema
(names, types, required markers).  The HTTP variant's `GET /tools`
returns the `TOOLS` list, whose `get_container` descriptor has no
`inputSchema` member at all — while the stdio descriptor for the same
tool does carry one with the `container_id` required marker. -/
theorem C3_counterexample :
    do_GET cfgW "/tools" = ⟨200, .dict [("tools", .list TOOLS)]⟩
    ∧ descName (TOOLS.getD 2 Py.none) = some (.str "get_container")
    ∧ (TOOLS.getD 2 Py.none).lookup "inputSchema" = Option.none
    ∧ descSchemaRequired (list_tools.getD 2 Py.none) = some (.list [.str "container_id"]) :=
  ⟨rfl, rfl, rfl, rfl⟩

/-- C3 amended: both enumerations are constant and return exactly the
nine registered tool names; the stdio `list_tools` descriptors carry
the argument schemas (argument names, their JSON types and the
required markers match the spec's section 4.1/4.2 table), while the
HTTP `GET /tools` descriptors carry only a name and a description and
no argument schema. -/
theorem C3_tool_enumeration :
    list_tools.map descName = TOOL_NAMES.map (fun n => some (Py.str n))
    ∧ list_tools.map descSchemaProps
        = TOOL_NAMES.map
            (fun n => some ((specToolArgs n).map (fun p => (p.1, some (Py.str p.2)))))
    ∧ list_tools.map descSchemaRequired
        = TOOL_NAMES.map (fun n => some (Py.list ((specRequiredArgs n).map Py.str)))
    ∧ (∀ c : Config, do_GET c "/tools" = ⟨200, .dict [("tools", .list TOOLS)]⟩)
    ∧ TOOLS.map descName = TOOL_NAMES.map (fun n => some (Py.str n))
    ∧ TOOLS.map (fun d => d.lookup "inputSchema") = TOOL_NAMES.map (fun _ => Option.none) :=
  ⟨rfl, rfl, rfl, fun _ => rfl, rfl, rfl⟩

/-- C4: dispatching any name outside the nine registered tools yields
the successful (non-fault) text `Unknown tool: <name>` with no
outbound REST call, in the stdio variant, in the HTTP dispatcher, and
through `POST /execute`, where it surfaces as a 200 response with
body `{result: "Unknown tool: ..."}`. -/
theorem C4_unknown_tool (cfg : Config) (net : Net) (name : String)
    (args : List (String × Py)) (pyargs : Py) (loads : String → Except String Py)
    (body : String) (hname : name ∉ TOOL_NAMES) :
    call_tool cfg net name args = ([⟨"text", "Unknown tool: " ++ name⟩], [])
    ∧ execute_tool cfg net (.str name) pyargs = ("Unknown tool: " ++ name, [])
    ∧ (body ≠ "" → loads body = .ok (.dict [("tool", .str name)]) →
        do_POST cfg net loads "/execute" body
          = (⟨200, .dict [("result", .str ("Unknown tool: " ++ name))]⟩, [])) := by
  simp only [TOOL_NAMES, List.mem_cons, List.mem_singleton, not_or] at hname
  obtain ⟨h1, h2, h3, h4, h5, h6, h7, h8, h9⟩ := hname
  have hstdio : call_tool cfg net name args = ([⟨"text", "Unknown tool: " ++ name⟩], []) := by
    simp [call_tool, call_tool_core, h1, h2, h3, h4, h5, h6, h7, h8, h9]
  have hrem : ∀ pa : Py, execute_tool cfg net (.str name) pa = ("Unknown tool: " ++ name, []) := by
    intro pa
    simp [execute_tool, execute_tool_core, pyEqStr, Py.toStr,
      h1, h2, h3, h4, h5, h6, h7, h8, h9]
  refine ⟨hstdio, hrem pyargs, fun hb hl => ?_⟩
  simp [do_POST, hb, hl, pyGet, List.lookup, hrem (Py.dict [])]

/-- Witness for C4 at the concrete unknown name `frobnicate`. -/
theorem C4_unknown_tool_witness :
    call_tool cfgW netOkW "frobnicate" [] = ([⟨"text", "Unknown tool: " ++ "frobnicate"⟩], [])
    ∧ execute_tool cfgW netOkW (.str "frobnicate") (.dict [])
        = ("Unknown tool: " ++ "frobnicate", [])
    ∧ do_POST cfgW netOkW (fun _ => .ok (.dict [("tool", .str "frobnicate")])) "/execute" "x"
        = (⟨200, .dict [("result", .str ("Unknown tool: " ++ "frobnicate"))]⟩, []) := by
  have h := C4_unknown_tool cfgW netOkW "frobnicate" [] (.dict [])
    (fun _ => .ok (.dict [("tool", .str "frobnicate")])) "x" (by decide)
  exact ⟨h.1, h.2.1, h.2.2 (by decide) rfl⟩

/-- C5: a `run_playbook` invocation with `playbook_id` and
`container_id` supplied issues exactly one POST to `/playbook_run`
whose JSON body is `{container_id, playbook_id, scope, run: true}`,
with `scope` equal to `"all"` when absent and to the supplied value
otherwise — in both variants. -/
theorem C5_run_playbook_request (cfg : Config) (net : Net)
    (arguments kvs : List (String × Py)) (pid cid : Py)
    (hu : ¬(cfg.splunkUrl = "" ∨ cfg.splunkToken = ""))
    (hp : arguments.lookup "playbook_id" = some pid)
    (hc : arguments.lookup "container_id" = some cid)
    (hp' : kvs.lookup "playbook_id" = some pid)
    (hc' : kvs.lookup "container_id" = some cid) :
    (arguments.lookup "scope" = Option.none →
      (call_tool cfg net "run_playbook" arguments).2 = [runReq cfg (.str "all") pid cid])
    ∧ (∀ sv, arguments.lookup "scope" = some sv →
      (call_tool cfg net "run_playbook" arguments).2 = [runReq cfg sv pid cid])
    ∧ (kvs.lookup "scope" = Option.none →
      (execute_tool cfg net (.str "run_playbook") (.dict kvs)).2
        = [runReq cfg (.str "all") pid cid])
    ∧ (∀ sv, kvs.lookup "scope" = some sv →
      (execute_tool cfg net (.str "run_playbook") (.dict kvs)).2 = [runReq cfg sv pid cid]) := by
  have hstdio : ∀ s : Py, dget arguments "scope" (.str "all") = s →
      (call_tool cfg net "run_playbook" arguments).2 = [runReq cfg s pid cid] := by
    intro s hsv
    rw [call_tool_snd]
    unfold call_tool_core
    simp only [reduceIte, String.reduceEq, hp, hc]
    unfold soar_api_request
    rw [if_neg hu]
    simp [mapOk, hsv, sentBody, Py.truthy, runReq, headersFor, String.append_assoc]
    rcases net _ with p | ⟨c, m, b⟩ | r <;> simp [mapOk, String.append_assoc]
  have hremote : ∀ s : Py, (kvs.lookup "scope").getD (.str "all") = s →
      (execute_tool cfg net (.str "run_playbook") (.dict kvs)).2
        = [runReq cfg s pid cid] := by
    intro s hsv
    rw [execute_tool_snd]
    unfold execute_tool_core
    simp only [pyEqStr, String.reduceBEq, Bool.false_eq_true, if_false, if_true,
      ite_true, ite_false, reduceIte, pyGet, hp', hc', hsv]
    unfold soar_api_request_remote
    rw [if_neg hu]
    simp [mapOk, sentBody, Py.truthy, runReq, headersFor, String.append_assoc]
    rcases net _ with p | ⟨c, m, b⟩ | r <;> simp [mapOk, String.append_assoc]
  exact ⟨fun hs => hstdio _ (by simp [dget, hs]),
         fun sv hs => hstdio _ (by simp [dget, hs]),
         fun hs => hremote _ (by simp [hs]),
         fun sv hs => hremote _ (by simp [hs])⟩

/-- Witness for C5 at the spec's example `{playbook_id: 5,
container_id: 9}` with no scope. -/
theorem C5_run_playbook_request_witness :
    (call_tool cfgW netOkW "run_playbook"
        [("playbook_id", .int 5), ("container_id", .int 9)]).2
      = [⟨"https://soar.example.com/rest/playbook_run", "POST",
          [("ph-auth-token", "tok"), ("Content-Type", "application/json")],
          some (.dict [("container_id", .int 9), ("playbook_id", .int 5),
                       ("scope", .str "all"), ("run", .bool true)])⟩]
    ∧ (execute_tool cfgW netOkW (.str "run_playbook")
        (.dict [("playbook_id", .int 5), ("container_id", .int 9)])).2
      = [⟨"https://soar.example.com/rest/playbook_run", "POST",
          [("ph-auth-token", "tok"), ("Content-Type", "application/json")],
          some (.dict [("container_id", .int 9), ("playbook_id", .int 5),
                       ("scope", .str "all"), ("run", .bool true)])⟩] := by
  have h := C5_run_playbook_request cfgW netOkW
    [("playbook_id", .int 5), ("container_id", .int 9)]
    [("playbook_id", .int 5), ("container_id", .int 9)]
    (.int 5) (.int 9) (by simp [cfgW]) rfl rfl rfl rfl
  constructor
  · have := h.1 rfl
    simpa [cfgW, runReq, headersFor] using this
  · have := h.2.2.1 rfl
    simpa [cfgW, runReq, headersFor] using this

/-- C6: a `list_containers` invocation issues one GET for
`/container?page=<page>&page_size=<page_size>`, with `page`
defaulting to 0 and `page_size` to 10 when absent, and supplied
values passing through into the query string unchanged — in both
variants. -/
theorem C6_list_containers_request (cfg : Config) (net : Net)
    (arguments kvs : List (String × Py))
    (hu : ¬(cfg.splunkUrl = "" ∨ cfg.splunkToken = "")) :
    (arguments.lookup "page" = Option.none → arguments.lookup "page_size" = Option.none →
      (call_tool cfg net "list_containers" arguments).2
        = [⟨cfg.splunkUrl ++ "/rest" ++ "/container?page=0&page_size=10",
            "GET", headersFor cfg, Option.none⟩])
    ∧ (∀ p n : Py, arguments.lookup "page" = some p →
        arguments.lookup "page_size" = some n →
      (call_tool cfg net "list_containers" arguments).2
        = [⟨cfg.splunkUrl ++ "/rest"
              ++ ("/container?page=" ++ p.toStr ++ "&page_size=" ++ n.toStr),
            "GET", headersFor cfg, Option.none⟩])
    ∧ (kvs.lookup "page" = Option.none → kvs.lookup "page_size" = Option.none →
      (execute_tool cfg net (.str "list_containers") (.dict kvs)).2
        = [⟨cfg.splunkUrl ++ "/rest" ++ "/container?page=0&page_size=10",
            "GET", headersFor cfg, Option.none⟩])
    ∧ (∀ p n : Py, kvs.lookup "page" = some p → kvs.lookup "page_size" = some n →
      (execute_tool cfg net (.str "list_containers") (.dict kvs)).2
        = [⟨cfg.splunkUrl ++ "/rest"
              ++ ("/container?page=" ++ p.toStr ++ "&page_size=" ++ n.toStr),
            "GET", headersFor cfg, Option.none⟩]) := by
  have hstdio : ∀ p n : Py, dget arguments "page" (.int 0) = p →
      dget arguments "page_size" (.int 10) = n →
      (call_tool cfg net "list_containers" arguments).2
        = [⟨cfg.splunkUrl ++ "/rest"
              ++ ("/container?page=" ++ p.toStr ++ "&page_size=" ++ n.toStr),
            "GET", headersFor cfg, Option.none⟩] := by
    intro p n hpv hnv
    rw [call_tool_snd]
    unfold call_tool_core
    simp only [reduceIte, String.reduceEq]
    unfold soar_api_request
    rw [if_neg hu]
    simp only [hpv, hnv, sentBody, headersFor]
    rcases net _ with q | ⟨c, m, b⟩ | r <;> simp [mapOk]
  have hremote : ∀ p n : Py, (kvs.lookup "page").getD (.int 0) = p →
      (kvs.lookup "page_size").getD (.int 10) = n →
      (execute_tool cfg net (.str "list_containers") (.dict kvs)).2
        = [⟨cfg.splunkUrl ++ "/rest"
              ++ ("/container?page=" ++ p.toStr ++ "&page_size=" ++ n.toStr),
            "GET", headersFor cfg, Option.none⟩] := by
    intro p n hpv hnv
    rw [execute_tool_snd]
    unfold execute_tool_core
    simp only [pyEqStr, String.reduceBEq, Bool.false_eq_true, if_false, if_true,
      ite_true, ite_false, reduceIte, pyGet, hpv, hnv]
    unfold soar_api_request_remote
    rw [if_neg hu]
    simp only [sentBody, headersFor]
    rcases net _ with q | ⟨c, m, b⟩ | r <;> simp [mapOk]
  refine ⟨fun h1 h2 => ?_, fun p n h1 h2 => hstdio p n (by simp [dget, h1]) (by simp [dget, h2]),
         fun h1 h2 => ?_, fun p n h1 h2 => hremote p n (by simp [h1]) (by simp [h2])⟩
  · have := hstdio (.int 0) (.int 10) (by simp [dget, h1]) (by simp [dget, h2])
    simpa [show Py.toStr (Py.int 0) = "0" from rfl,
           show Py.toStr (Py.int 10) = "10" from rfl] using this
  · have := hremote (.int 0) (.int 10) (by simp [h1]) (by simp [h2])
    simpa [show Py.toStr (Py.int 0) = "0" from rfl,
           show Py.toStr (Py.int 10) = "10" from rfl] using this

/-- Witness for C6: no arguments gives `page=0&page_size=10`; the
spec's example `{page: 2, page_size: 25}` gives `page=2&page_size=25`. -/
theorem C6_list_containers_request_witness :
    (call_tool cfgW netOkW "list_containers" []).2
      = [⟨"https://soar.example.com/rest/container?page=0&page_size=10", "GET",
          [("ph-auth-token", "tok"), ("Content-Type", "application/json")], Option.none⟩]
    ∧ (call_tool cfgW netOkW "list_containers"
        [("page", .int 2), ("page_size", .int 25)]).2
      = [⟨"https://soar.example.com/rest/container?page=2&page_size=25", "GET",
          [("ph-auth-token", "tok"), ("Content-Type", "application/json")], Option.none⟩] := by
  constructor
  · have h := (C6_list_containers_request cfgW netOkW [] [] (by simp [cfgW])).1 rfl rfl
    simpa [cfgW, headersFor] using h
  · have h := (C6_list_containers_request cfgW netOkW
      [("page", .int 2), ("page_size", .int 25)] [] (by simp [cfgW])).2.1
      (.int 2) (.int 25) rfl rfl
    simpa [cfgW, headersFor, show Py.toStr (Py.int 2) = "2" from rfl,
           show Py.toStr (Py.int 25) = "25" from rfl] using h

/-- C7: when an outbound REST call is answered with a non-2xx HTTP
status (an `HTTPError` with a readable body), any invocation that
issued a call returns (rather than throws) a result string carrying
both the numeric status code and the response body text — the text
`Error: API Error <code>: <body>` — in both variants. -/
theorem C7_http_error_reported (cfg : Config) (code : Nat) (msg bodyText name : String)
    (args : List (String × Py)) (pyname pyargs : Py) :
    ((call_tool cfg (fun _ => NetResult.httpError code msg (some bodyText)) name args).2 ≠ [] →
      (call_tool cfg (fun _ => NetResult.httpError code msg (some bodyText)) name args).1
        = [⟨"text", "Error: " ++ ("API Error " ++ toString code ++ ": " ++ bodyText)⟩])
    ∧ ((execute_tool cfg (fun _ => NetResult.httpError code msg (some bodyText))
          pyname pyargs).2 ≠ [] →
      (execute_tool cfg (fun _ => NetResult.httpError code msg (some bodyText))
          pyname pyargs).1
        = "Error: " ++ ("API Error " ++ toString code ++ ": " ++ bodyText)) := by
  constructor
  · intro hne
    rw [call_tool_snd] at hne
    exact call_tool_err _ _ _ _ _ (ctc_httpError cfg code msg bodyText name args hne)
  · intro hne
    rw [execute_tool_snd] at hne
    exact execute_tool_err _ _ _ _ _ (etc_httpError cfg code msg bodyText pyname pyargs hne)

/-- Witness for C7 at a concrete 404 with body `nope` on `list_assets`. -/
theorem C7_http_error_reported_witness :
    (call_tool cfgW (fun _ => NetResult.httpError 404 "Not Found" (some "nope"))
        "list_assets" []).1
      = [⟨"text", "Error: " ++ ("API Error " ++ toString 404 ++ ": " ++ "nope")⟩]
    ∧ (execute_tool cfgW (fun _ => NetResult.httpError 404 "Not Found" (some "nope"))
        (.str "list_assets") (.dict [])).1
      = "Error: " ++ ("API Error " ++ toString 404 ++ ": " ++ "nope") := by
  have h := C7_http_error_reported cfgW 404 "Not Found" "nope" "list_assets" []
    (.str "list_assets") (.dict [])
  refine ⟨h.1 ?_, h.2 ?_⟩
  · intro hh
    exact List.cons_ne_nil _ _ (show _ :: _ = ([] : List RestRequest) from hh)
  · intro hh
    exact List.cons_ne_nil _ _ (show _ :: _ = ([] : List RestRequest) from hh)

/-- C8: dispatch is total at the transport boundary.  The stdio
adapter returns exactly one text content block for every tool name
and argument mapping, and whenever the dispatch body ends in an
exception — configuration errors and REST-client failures included —
the block's text is the plain string `Error: <message>`; likewise the
HTTP dispatcher returns the plain string `Error: <message>`. -/
theorem C8_dispatch_total (cfg : Config) (net : Net) (name : String)
    (args : List (String × Py)) (pyname pyargs : Py) :
    (∃ t, (call_tool cfg net name args).1 = [⟨"text", t⟩])
    ∧ (∀ e, (call_tool_core cfg net name args).1 = .error e →
        (call_tool cfg net name args).1 = [⟨"text", "Error: " ++ e⟩])
    ∧ (∀ e, (execute_tool_core cfg net pyname pyargs).1 = .error e →
        (execute_tool cfg net pyname pyargs).1 = "Error: " ++ e) := by
  refine ⟨?_, fun e h => call_tool_err _ _ _ _ _ h, fun e h => execute_tool_err _ _ _ _ _ h⟩
  unfold call_tool
  rcases call_tool_core cfg net name args with ⟨(e | t), reqs⟩
  · exact ⟨"Error: " ++ e, rfl⟩
  · exact ⟨t, rfl⟩

/-- Witness for C8 at the configuration error (unset URL and token). -/
theorem C8_dispatch_total_witness :
    (call_tool ⟨"", ""⟩ netOkW "test_connection" []).1
      = [⟨"text", "Error: "
          ++ "SPLUNK_SOAR_URL and SPLUNK_SOAR_TOKEN environment variables must be set"⟩]
    ∧ (execute_tool ⟨"", ""⟩ netOkW (.str "test_connection") (.dict [])).1
      = "Error: " ++ "SPLUNK_SOAR_URL and SPLUNK_SOAR_TOKEN must be set" := by
  have h := C8_dispatch_total ⟨"", ""⟩ netOkW "test_connection" []
    (.str "test_connection") (.dict [])
  exact ⟨h.2.1 _ rfl, h.2.2 _ rfl⟩

/-- C9: the HTTP adapter answers a `POST /execute` whose non-empty
body fails JSON parsing with a 500 whose JSON body carries the error
field; a well-formed body naming an unknown tool with a 200 carrying
`{result: "Unknown tool: ..."}`; and `GET /health` with
`{status: "ok"}` under every configuration. -/
theorem C9_http_adapter_contract (cfg : Config) (net : Net)
    (loads : String → Except String Py) (body e name : String) :
    (body ≠ "" → loads body = .error e →
      do_POST cfg net loads "/execute" body = (⟨500, .dict [("error", .str e)]⟩, []))
    ∧ (name ∉ TOOL_NAMES → body ≠ "" → loads body = .ok (.dict [("tool", .str name)]) →
      do_POST cfg net loads "/execute" body
        = (⟨200, .dict [("result", .str ("Unknown tool: " ++ name))]⟩, []))
    ∧ (∀ c : Config, do_GET c "/health" = ⟨200, .dict [("status", .str "ok")]⟩) := by
  refine ⟨fun hb hl => ?_, fun hn hb hl => ?_, fun _ => rfl⟩
  · simp [do_POST, hb, hl]
  · simp only [TOOL_NAMES, List.mem_cons, List.mem_singleton, not_or] at hn
    obtain ⟨h1, h2, h3, h4, h5, h6, h7, h8, h9⟩ := hn
    have hrem : execute_tool cfg net (.str name) (.dict [])
        = ("Unknown tool: " ++ name, []) := by
      simp [execute_tool, execute_tool_core, pyEqStr, Py.toStr,
        h1, h2, h3, h4, h5, h6, h7, h8, h9]
    simp [do_POST, hb, hl, pyGet, List.lookup, hrem]

/-- Witness for C9 at a concrete malformed body, a concrete unknown
tool, and the health probe. -/
theorem C9_http_adapter_contract_witness :
    do_POST cfgW netOkW (fun _ => .error "Expecting value: line 1 column 1 (char 0)")
        "/execute" "not json"
      = (⟨500, .dict [("error", .str "Expecting value: line 1 column 1 (char 0)")]⟩, [])
    ∧ do_POST cfgW netOkW (fun _ => .ok (.dict [("tool", .str "frobnicate")]))
        "/execute" "x"
      = (⟨200, .dict [("result", .str ("Unknown tool: " ++ "frobnicate"))]⟩, [])
    ∧ do_GET cfgW "/health" = ⟨200, .dict [("status", .str "ok")]⟩ := by
  refine ⟨?_, ?_, ?_⟩
  · exact (C9_http_adapter_contract cfgW netOkW
      (fun _ => .error "Expecting value: line 1 column 1 (char 0)") "not json"
      "Expecting value: line 1 column 1 (char 0)" "t").1 (by decide) rfl
  · exact (C9_http_adapter_contract cfgW netOkW
      (fun _ => .ok (.dict [("tool", .str "frobnicate")])) "x"
      "e" "frobnicate").2.1 (by decide) (by decide) rfl
  · exact (C9_http_adapter_contract cfgW netOkW
      (fun _ => .error "e") "b" "e" "t").2.2 cfgW

/-- C10: a `POST /execute` with an empty body (Content-Length 0) is
accepted: the body is treated as `{}`, the dispatched tool name is
the absent-value marker `None`, and the response is a 200 carrying
`{result: "Unknown tool: None"}`, with no outbound REST call. -/
theorem C10_empty_body_dispatch (cfg : Config) (net : Net)
    (loads : String → Except String Py) :
    do_POST cfg net loads "/execute" ""
      = (⟨200, .dict [("result", .str "Unknown tool: None")]⟩, []) := rfl

end SoarMCP
